import Mathlib

/-!
# Verification of the e-commerce backend's checkout, CRUD and sanitization logic

A shallow embedding of the order/cart checkout flow (`services/orderService`,
mounted through `cartRoute.js`), the per-resource CRUD handlers
(`categoryService`, `subCategoryService`, `reviewService`, `brandService`,
`userService`, `productService`) and the request-sanitization middleware
(`validatorMiddleware.js`), together with proofs of the documented
properties.

The document database is modelled as in-memory association lists keyed by
document id; `findById`, `findByIdAndDelete` and `save` are the corresponding
list operations.  JavaScript truthiness of the optional numeric field
`totalPriceAfterDiscount` (`undefined` and `0` are falsy) is made explicit.
-/

namespace Shop

/-- Source: `Model.findById`: first association with the given key, if any. -/
def findById {κ α : Type} [DecidableEq κ] (l : List (κ × α)) (k : κ) : Option α :=
  (l.find? fun p => decide (p.1 = k)).map Prod.snd

/-- Source: `Model.findByIdAndDelete`: remove every association with the given key. -/
def findByIdAndDelete {κ α : Type} [DecidableEq κ] (l : List (κ × α)) (k : κ) :
    List (κ × α) :=
  l.filter fun p => decide (p.1 ≠ k)

/-- Source: `document.save()` after mutating a fetched document: store the new value
under its id. -/
def saveById {κ α : Type} [DecidableEq κ] (l : List (κ × α)) (k : κ) (v : α) :
    List (κ × α) :=
  l.map fun p => if p.1 = k then (k, v) else p

/-- One cart line, from `cartModel.js`: product reference, quantity, color,
unit price. -/
structure CartItem where
  product : String
  quantity : Nat
  color : String
  price : Nat
deriving Repr, DecidableEq

/-- A cart document, from `cartModel.js`: line items, total before discount,
optional total after discount (absent unless a coupon was applied), owner. -/
structure Cart where
  cartItems : List CartItem
  totalCartPrice : Nat
  totalPriceAfterDiscount : Option Nat
  user : String
deriving Repr, DecidableEq

/-- A product document, from `productModel.js`, restricted to the fields the
checkout flow and the product handlers touch.  `quantity` is the stock
counter, an integer because the unguarded `$inc` can drive it negative.  The
schema declares no `sold` field, so the document carries none. -/
structure Product where
  title : String
  description : String
  category : String
  brand : String
  price : Nat
  quantity : Int
deriving Repr, DecidableEq

/-- Source: the paths `productSchema` declares
(src/models/productModel.js:3-64).  There is no `sold` path. -/
def productSchemaPaths : List String :=
  ["title", "slug", "description", "quantity", "price", "images", "category",
    "subcategories", "brand", "ratingsAverage", "ratingsQuantity"]

/-- The shipping address sub-document of `orderModel.js`. -/
structure ShippingAddress where
  details : String
  phone : String
  city : String
  postalCode : String
deriving Repr, DecidableEq

/-- An order document, from `orderModel.js`, with the schema's default field
values (`taxPrice`/`shippingPrice` 0, method `cash`, both flags false). -/
structure Order where
  user : String
  cartItems : List CartItem
  shippingAddress : ShippingAddress
  taxPrice : Nat := 0
  shippingPrice : Nat := 0
  totalOrderPrice : Nat
  paymentMethodType : String := "cash"
  isPaid : Bool := false
  paidAt : Option Nat := none
  isDelivered : Bool := false
  deliveredAt : Option Nat := none
deriving Repr, DecidableEq

/-- A user account, from `userModel.js`, restricted to what the card-order
webhook reads (`findOne` by email). -/
structure UserAccount where
  name : String
  email : String
deriving Repr, DecidableEq

/-- The database state touched by the checkout flow.  Orders are keyed by a
fresh id taken from `nextOrderId`, mirroring the store's generated ids. -/
structure DB where
  carts : List (String × Cart)
  products : List (String × Product)
  orders : List (Nat × Order)
  users : List (String × UserAccount)
  nextOrderId : Nat
deriving Repr, DecidableEq

/-- Outcome of an express handler: a JSON response with a status code, an
`ApiError` forwarded through `next`, or an uncaught JavaScript exception. -/
inductive JsOutcome (α : Type) where
  | ok (status : Nat) (payload : α)
  | nextError (status : Nat) (message : String)
  | thrown (message : String)
deriving Repr, DecidableEq

/-- JavaScript truthiness of the optional numeric field
`cart.totalPriceAfterDiscount`: `undefined` (absent) and `0` are falsy. -/
def truthyNum : Option Nat → Bool
  | none => false
  | some n => decide (n ≠ 0)

/-- Source: `cart.totalPriceAfterDiscount ? cart.totalPriceAfterDiscount :
cart.totalCartPrice` (orderService, used by both `createCashOrder` and
`checkoutSession`). -/
def cartPrice (cart : Cart) : Nat :=
  if truthyNum cart.totalPriceAfterDiscount then
    cart.totalPriceAfterDiscount.getD 0
  else cart.totalCartPrice

/-- Source: one element of the `bulkOption` array the checkout constructs:
`{ updateOne: { filter: { _id: item.product }, update: { $inc: { quantity:
-item.quantity, sold: +item.quantity } } } }`.  The update document carries
both increments exactly as written. -/
structure UpdateOneOp where
  filterId : String
  incQuantity : Int
  incSold : Int
deriving Repr, DecidableEq

/-- Source: `cart.cartItems.map((item) => ({ updateOne: ... }))` — the bulk
update array as `createCashOrder` and `createCardOrder` build it. -/
def bulkOption (items : List CartItem) : List UpdateOneOp :=
  items.map fun item => ⟨item.product, -(item.quantity : Int), (item.quantity : Int)⟩

/-- Modelled from the spec's out-of-scope document mapper: the mapper casts
each `bulkWrite` update against the schema with its default strict mode and
silently strips `$inc` paths the schema does not declare.  Of the constructed
update, `quantity` is a `productSchemaPaths` entry and survives; `sold` is
not declared and is stripped. -/
def castInc (op : UpdateOneOp) : List (String × Int) :=
  (if productSchemaPaths.contains "quantity" then [("quantity", op.incQuantity)] else []) ++
    (if productSchemaPaths.contains "sold" then [("sold", op.incSold)] else [])

/-- Application of one surviving `$inc` path to a product document.  The cast
leaves only schema paths, and the constructed updates touch no numeric schema
path other than `quantity`. -/
def applyIncPath (p : Product) (kv : String × Int) : Product :=
  match kv.1 with
  | "quantity" => { p with quantity := p.quantity + kv.2 }
  | _ => p

/-- One `updateOne` as executed by the store: the strict-cast increments
applied to the document matching the filter.  Product ids are unique keys, so
updating every matching association coincides with the store's first-match
update. -/
def executeUpdateOne (op : UpdateOneOp) (products : List (String × Product)) :
    List (String × Product) :=
  products.map fun p =>
    if p.1 = op.filterId then (p.1, (castInc op).foldl applyIncPath p.2) else p

/-- Source: `Product.bulkWrite(bulkOption, {})`. -/
def bulkWrite (ops : List UpdateOneOp) (products : List (String × Product)) :
    List (String × Product) :=
  ops.foldl (fun ps op => executeUpdateOne op ps) products

/-- Source: `createCashOrder` (orderService): fetch the cart, 404 with the id in the
message when absent; otherwise compute the total with zero tax and shipping,
create the order, run the bulk stock update it constructs, delete the cart,
and respond 201 with the order. -/
def createCashOrder (cartId : String) (userId : String) (addr : ShippingAddress)
    (db : DB) : JsOutcome Order × DB :=
  let taxPrice := 0
  let shippingPrice := 0
  match findById db.carts cartId with
  | none => (.nextError 404 ("There is no such cart with id " ++ cartId), db)
  | some cart =>
    let totalOrderPrice := cartPrice cart + taxPrice + shippingPrice
    let order : Order :=
      { user := userId
        cartItems := cart.cartItems
        shippingAddress := addr
        totalOrderPrice := totalOrderPrice }
    let oid := db.nextOrderId
    let db := { db with
      orders := db.orders ++ [(oid, order)]
      nextOrderId := oid + 1 }
    let db := { db with products := bulkWrite (bulkOption cart.cartItems) db.products }
    let db := { db with carts := findByIdAndDelete db.carts cartId }
    (.ok 201 order, db)

/-- A checkout session as built by `checkoutSession` and echoed back by the
provider's webhook: `amount_total` is the single line item's
`totalOrderPrice * 100`, the cart id travels as `client_reference_id` and the
shipping address as `metadata`. -/
structure StripeSession where
  name : String
  amount_total : Nat
  currency : String
  customer_email : String
  client_reference_id : String
  metadata : ShippingAddress
deriving Repr, DecidableEq

/-- Source: `checkoutSession` (orderService): fetch the cart, 404 with the id in the
message when absent; otherwise build the provider session from the same
zero-tax zero-shipping total.  No database write happens here. -/
def checkoutSession (cartId : String) (user : UserAccount)
    (addr : ShippingAddress) (db : DB) : JsOutcome StripeSession × DB :=
  let taxPrice := 0
  let shippingPrice := 0
  match findById db.carts cartId with
  | none => (.nextError 404 ("There is no such cart with id " ++ cartId), db)
  | some cart =>
    let totalOrderPrice := cartPrice cart + taxPrice + shippingPrice
    let session : StripeSession :=
      { name := user.name
        amount_total := totalOrderPrice * 100
        currency := "egp"
        customer_email := user.email
        client_reference_id := cartId
        metadata := addr }
    (.ok 200 session, db)

/-- Source: `updateOrderToPaid` (orderService): fetch the order, 404 when absent;
otherwise set `isPaid = true`, `paidAt = Date.now()` and save.  There is no
guard against the order already being paid. -/
def updateOrderToPaid (oid : Nat) (now : Nat) (db : DB) : JsOutcome Order × DB :=
  match findById db.orders oid with
  | none =>
    (.nextError 404 ("There is no such a order with this id:" ++ toString oid), db)
  | some o =>
    let updated := { o with isPaid := true, paidAt := some now }
    (.ok 200 updated, { db with orders := saveById db.orders oid updated })

/-- Source: `updateOrderToDelivered` (orderService): fetch the order, 404 when absent;
otherwise set `isDelivered = true`, `deliveredAt = Date.now()` and save. -/
def updateOrderToDelivered (oid : Nat) (now : Nat) (db : DB) :
    JsOutcome Order × DB :=
  match findById db.orders oid with
  | none =>
    (.nextError 404 ("There is no such a order with this id:" ++ toString oid), db)
  | some o =>
    let updated := { o with isDelivered := true, deliveredAt := some now }
    (.ok 200 updated, { db with orders := saveById db.orders oid updated })

/-- Source: `createCardOrder` (orderService): from the completed session, re-fetch the
cart by `client_reference_id` and the user by e-mail, create an already-paid
card order over `amount_total / 100`, bulk-update stock and delete the cart.
The source dereferences `cart.cartItems` and `user._id` with no null check, so
a missing cart or user throws before any write: the state is unchanged. -/
def createCardOrder (session : StripeSession) (now : Nat) (db : DB) : DB :=
  let cart := findById db.carts session.client_reference_id
  let user := (db.users.find? fun p => decide (p.2.email = session.customer_email)).map Prod.fst
  match cart, user with
  | some c, some uid =>
    let order : Order :=
      { user := uid
        cartItems := c.cartItems
        shippingAddress := session.metadata
        totalOrderPrice := session.amount_total / 100
        isPaid := true
        paidAt := some now
        paymentMethodType := "card" }
    let oid := db.nextOrderId
    let db := { db with
      orders := db.orders ++ [(oid, order)]
      nextOrderId := oid + 1 }
    let db := { db with products := bulkWrite (bulkOption c.cartItems) db.products }
    { db with carts := findByIdAndDelete db.carts session.client_reference_id }
  | _, _ => db

/-- A webhook event as decoded by the provider's library: a type tag and the
completed session. -/
structure StripeEvent where
  type : String
  data : StripeSession
deriving Repr, DecidableEq

/-- The inbound webhook request: the raw event payload and the value of the
`stripe-signature` header. -/
structure WebhookRequest where
  event : StripeEvent
  sig : String
deriving Repr, DecidableEq

/-- Modelled from the spec: the external payment provider signs the callback
payload with the shared secret; this is the signature the verifying library
recomputes.  (The provider's library is an out-of-scope collaborator; only the
functional shape — a deterministic signature over secret and payload — is
modelled.) -/
def webhookSignature (secret : String) (ev : StripeEvent) : String :=
  secret ++ ":" ++ ev.type ++ ":" ++ ev.data.client_reference_id ++ ":"
    ++ ev.data.customer_email ++ ":" ++ toString ev.data.amount_total

/-- Modelled from the spec: `stripe.webhooks.constructEvent(body, sig, secret)`
returns the decoded event when the signature verifies against the shared
secret and throws otherwise. -/
def constructEvent (secret : String) (ev : StripeEvent) (sig : String) :
    Except String StripeEvent :=
  if sig = webhookSignature secret ev then .ok ev
  else .error "No signatures found matching the expected signature for payload"

/-- Source: `webhookCheckout` (orderService): verify the signature, answering 400
`Webhook Error: ...` on failure; on success run `createCardOrder` when the
event type is `checkout.session.completed` and answer 200. -/
def webhookCheckout (secret : String) (req : WebhookRequest) (now : Nat)
    (db : DB) : (Nat × String) × DB :=
  match constructEvent secret req.event req.sig with
  | .error e => ((400, "Webhook Error: " ++ e), db)
  | .ok event =>
    if event.type = "checkout.session.completed" then
      ((200, "received"), createCardOrder event.data now db)
    else ((200, "received"), db)

/-- The order-mutating operations of the normal flow, for reasoning about
arbitrary operation sequences. -/
inductive OrderOp where
  | cash (cartId : String) (userId : String) (addr : ShippingAddress)
  | card (session : StripeSession) (now : Nat)
  | pay (oid : Nat) (now : Nat)
  | deliver (oid : Nat) (now : Nat)
deriving Repr, DecidableEq

/-- The state effect of one order operation. -/
def applyOp (op : OrderOp) (db : DB) : DB :=
  match op with
  | .cash cartId userId addr => (createCashOrder cartId userId addr db).2
  | .card session now => createCardOrder session now db
  | .pay oid now => (updateOrderToPaid oid now db).2
  | .deliver oid now => (updateOrderToDelivered oid now db).2

/-- The state effect of a sequence of order operations. -/
def runOps (ops : List OrderOp) (db : DB) : DB :=
  ops.foldl (fun d op => applyOp op d) db

/-! ## Per-resource CRUD handlers

The six resource services repeat the same handler shape; the embeddings below
follow each source handler individually because two of them deviate from the
pattern (`getCategory` and `getReview`).  A partial update
(`findByIdAndUpdate(id, body, { new: true })`) is modelled as applying the
merge of `req.body` — a document transformer — to the stored document. -/

/-- A category document, from `categoryModel.js`. -/
structure CategoryDoc where
  name : String
  slug : String
  description : String
  image : String
deriving Repr, DecidableEq

/-- Modelled from the spec: the subcategory resource
(subcategories-under-category); its model file is not among the sources, only
its handlers and routes are.  A name, a slug and the parent category
reference. -/
structure SubCategoryDoc where
  name : String
  slug : String
  category : String
deriving Repr, DecidableEq

/-- Modelled from the spec: the review resource (reviews-under-product); its
model file is not among the sources.  A rating, the authoring user and the
reviewed product reference. -/
structure ReviewDoc where
  title : String
  ratings : Nat
  user : String
  product : String
deriving Repr, DecidableEq

/-- A brand document, from `brandModel.js`. -/
structure BrandDoc where
  name : String
  slug : String
  description : String
  image : String
deriving Repr, DecidableEq

/-- A user document, from `userModel.js`, restricted to the fields the user
CRUD handlers read and write. -/
structure UserDoc where
  fname : String
  lname : String
  email : String
  phone : String
  profileImage : String
  role : String
deriving Repr, DecidableEq

/-- The stores the per-resource CRUD handlers touch, keyed by document id. -/
structure CatalogDB where
  categories : List (String × CategoryDoc)
  subcategories : List (String × SubCategoryDoc)
  reviews : List (String × ReviewDoc)
  brands : List (String × BrandDoc)
  users : List (String × UserDoc)
  products : List (String × Product)
deriving Repr, DecidableEq

/-- A list response: `res.status(200).json({ results: documents.length,
data: documents })`. -/
structure ListResponse (α : Type) where
  status : Nat
  results : Nat
  data : List α
deriving Repr, DecidableEq

/-- Evaluation of a JavaScript identifier inside a template literal against
the handler's local string bindings: an unbound identifier raises
`ReferenceError`. -/
def templateVar (env : List (String × String)) (x : String) :
    Except String String :=
  match findById env x with
  | some v => .ok v
  | none => .error ("ReferenceError: " ++ x ++ " is not defined")

/-- The template literal `No document for this id ${id}` shared by the CRUD
handlers, evaluated against the handler's local bindings. -/
def noDocMessage (env : List (String × String)) : Except String String :=
  (templateVar env "id").map fun v => "No document for this id " ++ v

/-- Source: the names `categoryService.js` requires at module scope —
`ApiError` among them. -/
def categoryServiceImports : List String :=
  ["asyncHandler", "Category", "ApiError", "uploadSingleImage", "fs", "path"]

/-- Source: the names the subcategory service requires — `ApiError` among
them. -/
def subCategoryServiceImports : List String :=
  ["asyncHandler", "SubCategory", "ApiError"]

/-- Source: the names the review service module requires: `Review` and
`asyncHandler` only — it never requires `ApiError`. -/
def reviewServiceImports : List String :=
  ["Review", "asyncHandler"]

/-- Source: the names the brand service requires — `ApiError` among them. -/
def brandServiceImports : List String :=
  ["fs", "path", "uploadSingleImage", "asyncHandler", "Brand", "ApiError"]

/-- Source: the names the user service requires — `ApiError` among them. -/
def userServiceImports : List String :=
  ["fs", "path", "bcrypt", "asyncHandler", "uploadSingleImage", "ApiError", "User"]

/-- Source: the names the product service requires — `ApiError` among
them. -/
def productServiceImports : List String :=
  ["asyncHandler", "uploadMixOfImages", "Product", "ApiError"]

/-- The not-found branch `next(new ApiError(msgTemplate, 404))`: JavaScript
evaluates the constructor reference before its arguments, so a module that
never imports `ApiError` throws `ReferenceError: ApiError is not defined`
here; otherwise the message template is evaluated against the handler's
local bindings (an unbound `id` in it raises its own ReferenceError). -/
def notFoundBranch {α : Type} (imports : List String)
    (env : List (String × String)) : JsOutcome α :=
  if imports.contains "ApiError" then
    match noDocMessage env with
    | .ok msg => .nextError 404 msg
    | .error e => .thrown e
  else .thrown "ReferenceError: ApiError is not defined"

/-- The not-found branch of the handlers whose template interpolates the
member expression `req.params.id` (always bound): only the `ApiError` import
can fail. -/
def notFoundBranchReqId {α : Type} (imports : List String) (reqId : String) :
    JsOutcome α :=
  if imports.contains "ApiError" then
    .nextError 404 ("No document for this id " ++ reqId)
  else .thrown "ReferenceError: ApiError is not defined"

/-- JavaScript truthiness of a `Model.find(...)` result: `find` resolves to an
array, and an array object is always truthy. -/
def jsArrayTruthy {α : Type} (_ : List α) : Bool :=
  true

/-- Source: `getCategories` (categoryService): `Category.find({})`, answered with
`results` and `data`. -/
def getCategories (db : CatalogDB) : ListResponse CategoryDoc :=
  let documents := db.categories.map Prod.snd
  { status := 200, results := documents.length, data := documents }

/-- Source: `getCategory` (categoryService): fetches by `req.params.id`, but its 404
message interpolates the bare identifier `id`, which the handler never binds
(no `const { id } = req.params`), so the not-found branch evaluates an unbound
identifier. -/
def getCategory (reqId : String) (db : CatalogDB) : JsOutcome CategoryDoc :=
  match findById db.categories reqId with
  | some document => .ok 200 document
  | none => notFoundBranch categoryServiceImports []

/-- Source: `updateCategory` (categoryService): `findByIdAndUpdate(req.params.id,
req.body, { new: true })`; the 404 message interpolates `req.params.id`. -/
def updateCategory (reqId : String) (body : CategoryDoc → CategoryDoc)
    (db : CatalogDB) : JsOutcome CategoryDoc × CatalogDB :=
  match findById db.categories reqId with
  | none => (notFoundBranchReqId categoryServiceImports reqId, db)
  | some document =>
    let updated := body document
    (.ok 200 updated, { db with categories := saveById db.categories reqId updated })

/-- Source: `deleteCategory` (categoryService): destructures `const { id } =
req.params`, deletes, 404 with the id when absent, else 204. -/
def deleteCategory (reqId : String) (db : CatalogDB) :
    JsOutcome Unit × CatalogDB :=
  match findById db.categories reqId with
  | none => (notFoundBranch categoryServiceImports [("id", reqId)], db)
  | some _ =>
    (.ok 204 (), { db with categories := findByIdAndDelete db.categories reqId })

/-- Field access used by `SubCategory.find(req.query)`. -/
def subCategoryField (d : SubCategoryDoc) : String → Option String
  | "name" => some d.name
  | "slug" => some d.slug
  | "category" => some d.category
  | _ => none

/-- Equality matching of a query object against a subcategory document. -/
def matchesQuery (q : List (String × String)) (d : SubCategoryDoc) : Bool :=
  q.all fun kv => decide (subCategoryField d kv.1 = some kv.2)

/-- Source: `getSubCategories` (subCategoryService): `SubCategory.find(req.query)`,
answered with `results` and `data`. -/
def getSubCategories (q : List (String × String)) (db : CatalogDB) :
    ListResponse SubCategoryDoc :=
  let documents := (db.subcategories.filter fun p => matchesQuery q p.2).map Prod.snd
  { status := 200, results := documents.length, data := documents }

/-- Source: `getSubCategory` (subCategoryService): destructures `const { id } =
req.params`; 404 with the id in the message when absent. -/
def getSubCategory (reqId : String) (db : CatalogDB) : JsOutcome SubCategoryDoc :=
  match findById db.subcategories reqId with
  | some document => .ok 200 document
  | none => notFoundBranch subCategoryServiceImports [("id", reqId)]

/-- Source: `updateSubCategory` (subCategoryService). -/
def updateSubCategory (reqId : String) (body : SubCategoryDoc → SubCategoryDoc)
    (db : CatalogDB) : JsOutcome SubCategoryDoc × CatalogDB :=
  match findById db.subcategories reqId with
  | none => (notFoundBranchReqId subCategoryServiceImports reqId, db)
  | some document =>
    let updated := body document
    (.ok 200 updated,
      { db with subcategories := saveById db.subcategories reqId updated })

/-- Source: `deleteSubCategory` (subCategoryService). -/
def deleteSubCategory (reqId : String) (db : CatalogDB) :
    JsOutcome Unit × CatalogDB :=
  match findById db.subcategories reqId with
  | none => (notFoundBranch subCategoryServiceImports [("id", reqId)], db)
  | some _ =>
    (.ok 204 (),
      { db with subcategories := findByIdAndDelete db.subcategories reqId })

/-- Source: `getReviews` (reviewService): `Review.find({ product: req.query.productId
})`; when `productId` is absent the store drops the undefined filter value and
every review matches. -/
def getReviews (productId : Option String) (db : CatalogDB) :
    ListResponse ReviewDoc :=
  let documents := match productId with
    | some pid => (db.reviews.filter fun p => decide (p.2.product = pid)).map Prod.snd
    | none => db.reviews.map Prod.snd
  { status := 200, results := documents.length, data := documents }

/-- Source: `getReview` (reviewService): despite its `Get specific review by id` route
`GET /api/v1/reviews/:id`, the body runs `Review.find({ product:
req.params.productId })` — a `find`, whose array result is always truthy, so
the `if (!document)` 404 branch is unreachable and the handler answers 200
with the (possibly empty) array.  (Were the branch reachable it would throw:
the module never imports `ApiError` and the message interpolates an unbound
`id`.) -/
def getReview (productId : Option String) (db : CatalogDB) :
    JsOutcome (List ReviewDoc) :=
  let document := match productId with
    | some pid => (db.reviews.filter fun p => decide (p.2.product = pid)).map Prod.snd
    | none => db.reviews.map Prod.snd
  if jsArrayTruthy document then .ok 200 document
  else notFoundBranch reviewServiceImports []

/-- Source: `updateReview` (reviewService).  Its not-found branch constructs
`new ApiError(...)`, but the module never imports `ApiError`, so that branch
throws `ReferenceError` instead of producing the 404. -/
def updateReview (reqId : String) (body : ReviewDoc → ReviewDoc)
    (db : CatalogDB) : JsOutcome ReviewDoc × CatalogDB :=
  match findById db.reviews reqId with
  | none => (notFoundBranchReqId reviewServiceImports reqId, db)
  | some document =>
    let updated := body document
    (.ok 200 updated, { db with reviews := saveById db.reviews reqId updated })

/-- Source: `deleteReview` (reviewService).  As with `updateReview`, the
unimported `ApiError` makes the not-found branch throw `ReferenceError`
rather than answer 404. -/
def deleteReview (reqId : String) (db : CatalogDB) :
    JsOutcome Unit × CatalogDB :=
  match findById db.reviews reqId with
  | none => (notFoundBranch reviewServiceImports [("id", reqId)], db)
  | some _ =>
    (.ok 204 (), { db with reviews := findByIdAndDelete db.reviews reqId })

/-- Source: `getBrands` (brandService). -/
def getBrands (db : CatalogDB) : ListResponse BrandDoc :=
  let documents := db.brands.map Prod.snd
  { status := 200, results := documents.length, data := documents }

/-- Source: `getBrand` (brandService): destructures `const { id } = req.params`. -/
def getBrand (reqId : String) (db : CatalogDB) : JsOutcome BrandDoc :=
  match findById db.brands reqId with
  | some document => .ok 200 document
  | none => notFoundBranch brandServiceImports [("id", reqId)]

/-- Source: `updateBrand` (brandService). -/
def updateBrand (reqId : String) (body : BrandDoc → BrandDoc)
    (db : CatalogDB) : JsOutcome BrandDoc × CatalogDB :=
  match findById db.brands reqId with
  | none => (notFoundBranchReqId brandServiceImports reqId, db)
  | some document =>
    let updated := body document
    (.ok 200 updated, { db with brands := saveById db.brands reqId updated })

/-- Source: `deleteBrand` (brandService). -/
def deleteBrand (reqId : String) (db : CatalogDB) :
    JsOutcome Unit × CatalogDB :=
  match findById db.brands reqId with
  | none => (notFoundBranch brandServiceImports [("id", reqId)], db)
  | some _ =>
    (.ok 204 (), { db with brands := findByIdAndDelete db.brands reqId })

/-- Source: `getUsers` (userService). -/
def getUsers (db : CatalogDB) : ListResponse UserDoc :=
  let documents := db.users.map Prod.snd
  { status := 200, results := documents.length, data := documents }

/-- Source: `getUser` (userService): destructures `const { id } = req.params`. -/
def getUser (reqId : String) (db : CatalogDB) : JsOutcome UserDoc :=
  match findById db.users reqId with
  | some document => .ok 200 document
  | none => notFoundBranch userServiceImports [("id", reqId)]

/-- Source: `updateUser` (userService): updates the enumerated profile fields. -/
def updateUser (reqId : String) (body : UserDoc → UserDoc)
    (db : CatalogDB) : JsOutcome UserDoc × CatalogDB :=
  match findById db.users reqId with
  | none => (notFoundBranchReqId userServiceImports reqId, db)
  | some document =>
    let updated := body document
    (.ok 200 updated, { db with users := saveById db.users reqId updated })

/-- Source: `deleteUser` (userService). -/
def deleteUser (reqId : String) (db : CatalogDB) :
    JsOutcome Unit × CatalogDB :=
  match findById db.users reqId with
  | none => (notFoundBranch userServiceImports [("id", reqId)], db)
  | some _ =>
    (.ok 204 (), { db with users := findByIdAndDelete db.users reqId })

/-- Source: `getProduct` (productService): destructures `const { id } = req.params`. -/
def getProduct (reqId : String) (db : CatalogDB) : JsOutcome Product :=
  match findById db.products reqId with
  | some document => .ok 200 document
  | none => notFoundBranch productServiceImports [("id", reqId)]

/-- Source: `updateProduct` (productService). -/
def updateProduct (reqId : String) (body : Product → Product)
    (db : CatalogDB) : JsOutcome Product × CatalogDB :=
  match findById db.products reqId with
  | none => (notFoundBranchReqId productServiceImports reqId, db)
  | some document =>
    let updated := body document
    (.ok 200 updated, { db with products := saveById db.products reqId updated })

/-- Source: `deleteProduct` (productService). -/
def deleteProduct (reqId : String) (db : CatalogDB) :
    JsOutcome Unit × CatalogDB :=
  match findById db.products reqId with
  | none => (notFoundBranch productServiceImports [("id", reqId)], db)
  | some _ =>
    (.ok 204 (), { db with products := findByIdAndDelete db.products reqId })

/-- A value of the rebuilt query object `getProducts` constructs: a cast
number (`+values[i]`, with `none` for a non-numeral string, as NaN), a plain
string, a comma-split list, or a case-insensitive regular expression carried
as its pattern. -/
inductive QueryVal where
  | numV (n : Option Int)
  | strV (s : String)
  | listV (vs : List String)
  | regexV (pat : String)
deriving Repr, DecidableEq

/-- Source: the query-rebuild loop of `getProducts`: empty values are
dropped, `min`/`max` are cast to numbers, `category`/`brand`/`subcategory`
are kept as strings (comma-split into lists when they contain a comma), and
every other value becomes a case-insensitive regular expression. -/
def buildProductQuery (q : List (String × String)) : List (String × QueryVal) :=
  q.foldl
    (fun acc kv =>
      if kv.2 = "" then acc
      else if kv.1 = "min" ∨ kv.1 = "max" then acc ++ [(kv.1, .numV kv.2.toInt?)]
      else if kv.1 = "category" ∨ kv.1 = "brand" ∨ kv.1 = "subcategory" then
        if kv.2.contains ',' then acc ++ [(kv.1, .listV (kv.2.splitOn ","))]
        else acc ++ [(kv.1, .strV kv.2)]
      else acc ++ [(kv.1, .regexV kv.2)])
    []

/-- String-valued product fields reachable by the rebuilt query. -/
def productStrField (p : Product) : String → Option String
  | "title" => some p.title
  | "description" => some p.description
  | "category" => some p.category
  | "brand" => some p.brand
  | _ => none

/-- Numeric product fields reachable by the rebuilt query. -/
def productNumField (p : Product) : String → Option Int
  | "price" => some (p.price : Int)
  | "quantity" => some p.quantity
  | _ => none

/-- Case-insensitive substring test: the model of matching
`new RegExp(v, "i")` for the plain-text patterns the query strings carry. -/
def strContainsCI (value pat : String) : Bool :=
  let ps := pat.toLower.toList
  let vs := value.toLower.toList
  (List.range (vs.length + 1)).any fun i => decide ((vs.drop i).take ps.length = ps)

/-- One rebuilt-query condition tested against one document.  A `NaN` number
(`none`) matches nothing. -/
def matchesCond (p : Product) (k : String) (v : QueryVal) : Bool :=
  match v with
  | .numV n =>
    match n, productNumField p k with
    | some a, some b => decide (a = b)
    | _, _ => false
  | .strV s => decide (productStrField p k = some s)
  | .listV vs =>
    match productStrField p k with
    | some fv => vs.contains fv
    | none => false
  | .regexV pat =>
    match productStrField p k with
    | some fv => strContainsCI fv pat
    | none => false

/-- Modelled from the spec's out-of-scope document mapper: a `find` filter is
cast against the schema in strict-query mode, dropping paths the schema does
not declare — so `min`, `max` and the misspelt `subcategory` (the schema path
is `subcategories`) never constrain the match, which is what lets the
handler's own price post-filter do that work. -/
def matchesProductQuery (query : List (String × QueryVal)) (p : Product) : Bool :=
  query.all fun kv =>
    if productSchemaPaths.contains kv.1 then matchesCond p kv.1 kv.2 else true

/-- The numeric value the rebuilt query holds under a key, if any. -/
def queryNum (query : List (String × QueryVal)) (k : String) : Option Int :=
  match findById query k with
  | some (.numV n) => n
  | _ => none

/-- JS truthiness of `req.query.min` after the rebuild: absent, `NaN`
(`none`) and `0` are falsy. -/
def truthyInt : Option Int → Bool
  | none => false
  | some n => decide (n ≠ 0)

/-- Source: `getProducts` (productService): rebuild `req.query`, run
`Product.find` with it, post-filter by price when both `min` and `max` are
truthy, and answer 200 with `results` and `data`. -/
def getProducts (q : List (String × String)) (db : CatalogDB) :
    ListResponse Product :=
  let query := buildProductQuery q
  let documents :=
    (db.products.filter fun pr => matchesProductQuery query pr.2).map Prod.snd
  let documents :=
    if truthyInt (queryNum query "min") && truthyInt (queryNum query "max") then
      documents.filter fun p =>
        decide ((queryNum query "min").getD 0 ≤ (p.price : Int) ∧
          (p.price : Int) ≤ (queryNum query "max").getD 0)
    else documents
  { status := 200, results := documents.length, data := documents }

/-- Pagination metadata of the factory's list responses (spec: current page,
page size, number of pages). -/
structure PaginationResult where
  currentPage : Nat
  limit : Nat
  numberOfPages : Nat
deriving Repr, DecidableEq

/-- A factory list response: status, `results`, `paginationResult` and
`data`. -/
structure FactoryListResponse (α : Type) where
  status : Nat
  results : Nat
  paginationResult : PaginationResult
  data : List α
deriving Repr, DecidableEq

/-- Modelled from the spec: the generic factory's list operation
(`factory.getAll`; its module is not among the sources — only callers such
as `findAllOrders = factory.getAll(Order)` are).  Per the spec it filters
the collection, slices the requested page, and returns the matched page as
`data` with `results` and pagination metadata; an empty result set is not an
error. -/
def getAll {α : Type} (docs : List α) (keep : α → Bool) (page limit : Nat) :
    FactoryListResponse α :=
  let filtered := docs.filter keep
  let paged := (filtered.drop ((page - 1) * limit)).take limit
  { status := 200
    results := paged.length
    paginationResult :=
      { currentPage := page, limit := limit
        numberOfPages := (filtered.length + limit - 1) / limit }
    data := paged }

/-- Source: `findAllOrders = factory.getAll(Order)` — the orders list,
optionally restricted by `filterOrderForLoggedUser`'s filter object. -/
def findAllOrders (keep : Order → Bool) (page limit : Nat) (db : DB) :
    FactoryListResponse Order :=
  getAll (db.orders.map Prod.snd) keep page limit

/-! ## Request sanitization middleware

`sanitizeInput` (validatorMiddleware.js) walks `req.body`, `req.query` and
`req.params`: a property equal to `""` or to the string `"undefined"` becomes
`null`; a non-null object-typed property (plain objects and arrays alike) is
walked recursively; everything else is untouched. -/

/-- A JavaScript value as the middleware distinguishes them: strings, numbers,
booleans, `null`, `undefined`, plain objects and arrays. -/
inductive JsVal where
  | str (s : String)
  | num (n : Int)
  | boolVal (b : Bool)
  | jsNull
  | jsUndefined
  | obj (fields : List (String × JsVal))
  | arr (elems : List JsVal)
deriving Repr

mutual

/-- The action of `sanitizeObject` on one property value: `""` and
`"undefined"` become `null`; non-null objects (arrays included — `typeof` of
an array is `"object"` and `Object.keys` enumerates its indices) are recursed
into; numbers, booleans, other strings, `null` and `undefined` are left as
they are. -/
def sanitizeProp : JsVal → JsVal
  | .str s => if s = "" ∨ s = "undefined" then .jsNull else .str s
  | .obj fields => .obj (sanitizeFields fields)
  | .arr elems => .arr (sanitizeElems elems)
  | v => v

/-- Source: `sanitizeObject` over the key/value pairs of a plain object. -/
def sanitizeFields : List (String × JsVal) → List (String × JsVal)
  | [] => []
  | (k, v) :: rest => (k, sanitizeProp v) :: sanitizeFields rest

/-- Source: `sanitizeObject` over the elements of an array. -/
def sanitizeElems : List JsVal → List JsVal
  | [] => []
  | v :: rest => sanitizeProp v :: sanitizeElems rest

end

/-- The three request objects the middleware rewrites. -/
structure JsRequest where
  body : List (String × JsVal)
  query : List (String × JsVal)
  params : List (String × JsVal)
deriving Repr

/-- Source: `sanitizeInput` (validatorMiddleware.js): sanitize `req.body`, `req.query`
and `req.params` in place, then call `next()`.  (The `if (req.body)` guards
only skip absent objects; the model carries all three.) -/
def sanitizeInput (req : JsRequest) : JsRequest :=
  { body := sanitizeFields req.body
    query := sanitizeFields req.query
    params := sanitizeFields req.params }

/-- Source: the application entry among the sources registers ahead of the
mounted routes only `bodyParser.json()`, `cors()`, the serverless function
route, the static uploads handler and (in development) `morgan` — never
`sanitizeInput`; no route among the sources mounts it either.  None of the
registered middleware rewrites parsed `body`/`query`/`params` property
values, so the pre-handler transformation of a parsed request is the
identity. -/
def appPreRoute (req : JsRequest) : JsRequest :=
  req

/-- The `totalOrderPrice` of a successful cash-order response. -/
def orderPriceOf : JsOutcome Order → Option Nat
  | .ok _ o => some o.totalOrderPrice
  | _ => none

/-- The `amount_total` of a successful checkout-session response. -/
def sessionAmountOf : JsOutcome StripeSession → Option Nat
  | .ok _ s => some s.amount_total
  | _ => none

/-! ## Concrete fixtures

The cart of the specification's worked example (`productA`×2 at 10,
`productB`×1 at 5, `totalCartPrice` 25), plus small states used to evaluate
the theorems on closed inputs. -/

def addr0 : ShippingAddress := ⟨"12 Nile St", "0100000000", "Cairo", "11511"⟩

def productA : Product :=
  { title := "Product A", description := "first sample product",
    category := "cat1", brand := "brand1", price := 10, quantity := 10 }

def productB : Product :=
  { title := "Product B", description := "second sample product",
    category := "cat1", brand := "brand2", price := 5, quantity := 5 }

def cartA : Cart :=
  ⟨[⟨"productA", 2, "red", 10⟩, ⟨"productB", 1, "blue", 5⟩], 25, none, "u1"⟩

def userOne : UserAccount := ⟨"User One", "u1@mail.test"⟩

def dbA : DB :=
  ⟨[("cartA", cartA)], [("productA", productA), ("productB", productB)], [],
    [("u1", userOne)], 1⟩

/-- The example cart after a 100% coupon: the discounted total is present and
equal to `0`. -/
def cartZero : Cart := ⟨cartA.cartItems, 25, some 0, "u1"⟩

def dbZero : DB :=
  ⟨[("cartZ", cartZero)], [("productA", productA), ("productB", productB)], [],
    [("u1", userOne)], 1⟩

def emptyDB : DB := ⟨[], [], [], [], 0⟩

def emptyCatalog : CatalogDB := ⟨[], [], [], [], [], []⟩

def order0 : Order :=
  { user := "u1", cartItems := cartA.cartItems, shippingAddress := addr0,
    totalOrderPrice := 25 }

def dbOrder : DB := ⟨[], [], [(5, order0)], [], 6⟩

def session0 : StripeSession :=
  ⟨"User One", 2500, "egp", "u1@mail.test", "cartA", addr0⟩

def event0 : StripeEvent := ⟨"checkout.session.completed", session0⟩

/-! ## Store lemmas -/

theorem findById_cons {κ α : Type} [DecidableEq κ] (p : κ × α)
    (l : List (κ × α)) (k : κ) :
    findById (p :: l) k = if p.1 = k then some p.2 else findById l k := by
  by_cases h : p.1 = k
  · simp [findById, List.find?_cons, h]
  · simp [findById, List.find?_cons, h]

theorem findById_append_of_some {κ α : Type} [DecidableEq κ]
    {l : List (κ × α)} {k : κ} {v : α} (h : findById l k = some v)
    (l2 : List (κ × α)) : findById (l ++ l2) k = some v := by
  induction l with
  | nil => simp [findById] at h
  | cons p tl ih =>
    rw [List.cons_append, findById_cons] at *
    by_cases hp : p.1 = k
    · simpa [hp] using h
    · rw [if_neg hp] at h ⊢
      exact ih h

theorem findById_findByIdAndDelete_self {κ α : Type} [DecidableEq κ]
    (l : List (κ × α)) (k : κ) :
    findById (findByIdAndDelete l k) k = none := by
  induction l with
  | nil => rfl
  | cons p tl ih =>
    by_cases hp : p.1 = k
    · simpa [findByIdAndDelete, hp] using ih
    · simpa [findByIdAndDelete, hp, findById_cons] using ih

theorem findById_saveById_self {κ α : Type} [DecidableEq κ]
    {l : List (κ × α)} {k : κ} {v : α} (h : findById l k = some v) (w : α) :
    findById (saveById l k w) k = some w := by
  induction l with
  | nil => simp [findById] at h
  | cons p tl ih =>
    by_cases hp : p.1 = k
    · simp [saveById, hp, findById_cons]
    · rw [findById_cons, if_neg hp] at h
      simpa [saveById, hp, findById_cons] using ih h

theorem findById_saveById_ne {κ α : Type} [DecidableEq κ]
    (l : List (κ × α)) {k k2 : κ} (h : k2 ≠ k) (w : α) :
    findById (saveById l k w) k2 = findById l k2 := by
  induction l with
  | nil => rfl
  | cons p tl ih =>
    by_cases hp : p.1 = k
    · rw [saveById, List.map_cons, if_pos hp]
      rw [findById_cons, findById_cons, if_neg (fun hk => h hk.symm), hp,
        if_neg (fun hk => h hk.symm)]
      exact ih
    · rw [saveById, List.map_cons, if_neg hp]
      rw [findById_cons, findById_cons]
      by_cases hk : p.1 = k2
      · rw [if_pos hk, if_pos hk]
      · rw [if_neg hk, if_neg hk]
        exact ih

/-! ## Claim theorems -/

/-- C1 counterexample: on a cart whose `totalPriceAfterDiscount` is present
but equal to `0` (with `totalCartPrice` 25), `createCashOrder` sets
`totalOrderPrice` to `25`, not to the present discounted total `0` — the
claim's "totalPriceAfterDiscount when present" reading fails because `0` is
falsy. -/
theorem createCashOrder_present_zero_discount :
    cartZero.totalPriceAfterDiscount = some 0 ∧
    orderPriceOf (createCashOrder "cartZ" "u1" addr0 dbZero).1 = some 25 ∧
    (25 : Nat) ≠ 0 := by
  decide

/-- C1 (amended: the discounted total is used when present **and non-zero**):
for every existing cart, `createCashOrder` responds 201 with an order whose
`totalOrderPrice` is `cartPrice cart` plus a tax price of 0 and a shipping
price of 0, where `cartPrice` is the discounted total when present and
non-zero and the pre-discount `totalCartPrice` otherwise; the order's
`taxPrice` and `shippingPrice` fields are 0.  In particular a cart with line
items productA×2 at 10 and productB×1 at 5 (`totalCartPrice` 25, no discount)
yields `totalOrderPrice = 25` (see the witness). -/
theorem createCashOrder_total (db : DB) (cartId userId : String)
    (addr : ShippingAddress) (cart : Cart)
    (h : findById db.carts cartId = some cart) :
    (createCashOrder cartId userId addr db).1 =
      .ok 201
        { user := userId
          cartItems := cart.cartItems
          shippingAddress := addr
          totalOrderPrice := cartPrice cart + 0 + 0 } ∧
    (∀ d, cart.totalPriceAfterDiscount = some d → d ≠ 0 → cartPrice cart = d) ∧
    (cart.totalPriceAfterDiscount = none → cartPrice cart = cart.totalCartPrice) ∧
    (cart.totalPriceAfterDiscount = some 0 → cartPrice cart = cart.totalCartPrice) := by
  refine ⟨by simp [createCashOrder, h], ?_, ?_, ?_⟩
  · intro d hd hd0
    simp [cartPrice, truthyNum, hd, hd0]
  · intro hn
    simp [cartPrice, truthyNum, hn]
  · intro h0
    simp [cartPrice, truthyNum, h0]

/-- Witness for C1: the specification's example cart (productA×2 at 10,
productB×1 at 5, `totalCartPrice` 25, no discount) produces an order with
`totalOrderPrice = 25`, tax 0, shipping 0. -/
theorem createCashOrder_total_witness :
    (createCashOrder "cartA" "u1" addr0 dbA).1 =
      .ok 201
        { user := "u1"
          cartItems := cartA.cartItems
          shippingAddress := addr0
          totalOrderPrice := 25 } := by
  have h := (createCashOrder_total dbA "cartA" "u1" addr0 cartA (by decide)).1
  have hp : cartPrice cartA + 0 + 0 = 25 := by decide
  rw [hp] at h
  exact h

/-- C2 (the code evaluated at the failing input): checking out the example
cart, the bulk update the code constructs requests for productA both the
quantity decrement (-2) and a sold increment (+2); but `productSchemaPaths`
declares no `sold` path, so the strict cast keeps only the `quantity`
increment, and productA reads back with `quantity` 10 → 8 and nothing else —
the schema-faithful document has no sold counter to increment.  The cart is
deleted as the claim says. -/
theorem createCashOrder_no_sold_counter :
    bulkOption cartA.cartItems =
      [⟨"productA", -2, 2⟩, ⟨"productB", -1, 1⟩] ∧
    productSchemaPaths.contains "sold" = false ∧
    castInc ⟨"productA", -2, 2⟩ = [("quantity", -2)] ∧
    findById (createCashOrder "cartA" "u1" addr0 dbA).2.products "productA" =
      some { productA with quantity := productA.quantity - 2 } ∧
    findById (createCashOrder "cartA" "u1" addr0 dbA).2.carts "cartA" = none := by
  decide

/-- C3: on a cart id that resolves to no cart, both `createCashOrder` and
`checkoutSession` answer 404 with the message
`There is no such cart with id <id>` (which contains the identifier) and
leave the state unchanged — in particular no order is created; and a second
`createCashOrder` on a cart id whose cart a first successful call deleted
answers that same 404. -/
theorem orderHandlers_cart_notFound :
    (∀ (db : DB) (cartId userId : String) (addr : ShippingAddress)
        (user : UserAccount),
      findById db.carts cartId = none →
        createCashOrder cartId userId addr db =
          (.nextError 404 ("There is no such cart with id " ++ cartId), db) ∧
        checkoutSession cartId user addr db =
          (.nextError 404 ("There is no such cart with id " ++ cartId), db)) ∧
    (∀ (db : DB) (cartId u1 u2 : String) (a1 a2 : ShippingAddress) (cart : Cart),
      findById db.carts cartId = some cart →
        (createCashOrder cartId u2 a2 (createCashOrder cartId u1 a1 db).2).1 =
          .nextError 404 ("There is no such cart with id " ++ cartId)) := by
  constructor
  · intro db cartId userId addr user h
    constructor
    · simp [createCashOrder, h]
    · simp [checkoutSession, h]
  · intro db cartId u1 u2 a1 a2 cart h
    have hcart : (createCashOrder cartId u1 a1 db).2.carts =
        findByIdAndDelete db.carts cartId := by
      simp [createCashOrder, h]
    have hn : findById (createCashOrder cartId u1 a1 db).2.carts cartId = none := by
      rw [hcart]
      exact findById_findByIdAndDelete_self _ _
    generalize hg : (createCashOrder cartId u1 a1 db).2 = db2 at hn ⊢
    simp [createCashOrder, hn]

/-- Witness for C3: on the empty state both handlers answer 404 carrying the
unknown id `missing`, unchanged state; and after checking out `cartA` on the
example state, a second cash order on `cartA` answers the 404. -/
theorem orderHandlers_cart_notFound_witness :
    (createCashOrder "missing" "u1" addr0 emptyDB =
      (.nextError 404 ("There is no such cart with id " ++ "missing"), emptyDB) ∧
     checkoutSession "missing" userOne addr0 emptyDB =
      (.nextError 404 ("There is no such cart with id " ++ "missing"), emptyDB)) ∧
    (createCashOrder "cartA" "u2" addr0 (createCashOrder "cartA" "u1" addr0 dbA).2).1 =
      .nextError 404 ("There is no such cart with id " ++ "cartA") := by
  exact ⟨orderHandlers_cart_notFound.1 emptyDB "missing" "u1" addr0 userOne (by decide),
    orderHandlers_cart_notFound.2 dbA "cartA" "u1" "u2" addr0 addr0 cartA (by decide)⟩

/-- C9: the fallback to `totalCartPrice` triggers on any falsy
`totalPriceAfterDiscount`: a present discounted total of `0` still yields the
pre-discount `totalCartPrice` in both `createCashOrder` and
`checkoutSession`, and the discounted total is used only when it is present
and non-zero. -/
theorem discount_falsy_fallback (db : DB) (cartId userId : String)
    (addr : ShippingAddress) (user : UserAccount) (cart : Cart)
    (h : findById db.carts cartId = some cart) :
    (cart.totalPriceAfterDiscount = some 0 →
      orderPriceOf (createCashOrder cartId userId addr db).1 =
        some cart.totalCartPrice ∧
      sessionAmountOf (checkoutSession cartId user addr db).1 =
        some (cart.totalCartPrice * 100)) ∧
    (cartPrice cart = cart.totalCartPrice ∨
      ∃ d, cart.totalPriceAfterDiscount = some d ∧ d ≠ 0 ∧ cartPrice cart = d) := by
  constructor
  · intro h0
    constructor
    · simp [createCashOrder, h, orderPriceOf, cartPrice, truthyNum, h0]
    · simp [checkoutSession, h, sessionAmountOf, cartPrice, truthyNum, h0]
  · cases hd : cart.totalPriceAfterDiscount with
    | none =>
      left
      simp [cartPrice, truthyNum, hd]
    | some d =>
      by_cases hd0 : d = 0
      · left
        simp [cartPrice, truthyNum, hd, hd0]
      · right
        exact ⟨d, rfl, hd0, by simp [cartPrice, truthyNum, hd, hd0]⟩

/-- Witness for C9: the 100%-discounted example cart (`totalPriceAfterDiscount
= some 0`, `totalCartPrice = 25`) produces a cash order of 25 and a session
amount of 2500, not 0. -/
theorem discount_falsy_fallback_witness :
    orderPriceOf (createCashOrder "cartZ" "u1" addr0 dbZero).1 = some 25 ∧
    sessionAmountOf (checkoutSession "cartZ" userOne addr0 dbZero).1 = some 2500 := by
  have h := (discount_falsy_fallback dbZero "cartZ" "u1" addr0 userOne cartZero
    (by decide)).1 (by decide)
  exact ⟨h.1, h.2⟩

/-- C5: `updateOrderToPaid` is idempotent in effect: after one call the order
reads back with `isPaid = true` and `paidAt` the first timestamp; after a
second call it reads back as exactly the same order except that `paidAt` now
holds the second timestamp — re-setting the timestamp is not guarded. -/
theorem updateOrderToPaid_idempotent (db : DB) (oid t1 t2 : Nat) (o : Order)
    (h : findById db.orders oid = some o) :
    findById (updateOrderToPaid oid t1 db).2.orders oid =
      some { o with isPaid := true, paidAt := some t1 } ∧
    findById (updateOrderToPaid oid t2 (updateOrderToPaid oid t1 db).2).2.orders oid =
      some { o with isPaid := true, paidAt := some t2 } := by
  have h1 : (updateOrderToPaid oid t1 db).2.orders =
      saveById db.orders oid { o with isPaid := true, paidAt := some t1 } := by
    simp [updateOrderToPaid, h]
  have hf1 : findById (updateOrderToPaid oid t1 db).2.orders oid =
      some { o with isPaid := true, paidAt := some t1 } := by
    rw [h1]
    exact findById_saveById_self h _
  refine ⟨hf1, ?_⟩
  generalize hg : (updateOrderToPaid oid t1 db).2 = db1 at hf1 ⊢
  have h2 : (updateOrderToPaid oid t2 db1).2.orders =
      saveById db1.orders oid
        { o with isPaid := true, paidAt := some t2 } := by
    simp [updateOrderToPaid, hf1]
  rw [h2]
  exact findById_saveById_self hf1 _

/-- Witness for C5: paying order 5 at time 100 and again at time 200 leaves
`isPaid = true` both times, with only `paidAt` differing. -/
theorem updateOrderToPaid_idempotent_witness :
    findById (updateOrderToPaid 5 100 dbOrder).2.orders 5 =
      some { order0 with isPaid := true, paidAt := some 100 } ∧
    findById (updateOrderToPaid 5 200 (updateOrderToPaid 5 100 dbOrder).2).2.orders 5 =
      some { order0 with isPaid := true, paidAt := some 200 } :=
  updateOrderToPaid_idempotent dbOrder 5 100 200 order0 (by decide)

theorem createCashOrder_orders_shape (cartId userId : String)
    (addr : ShippingAddress) (db : DB) :
    (createCashOrder cartId userId addr db).2.orders = db.orders ∨
    ∃ x, (createCashOrder cartId userId addr db).2.orders = db.orders ++ [x] := by
  cases hc : findById db.carts cartId with
  | none =>
    left
    simp [createCashOrder, hc]
  | some cart =>
    right
    refine ⟨(db.nextOrderId,
      { user := userId, cartItems := cart.cartItems, shippingAddress := addr,
        totalOrderPrice := cartPrice cart }), ?_⟩
    simp [createCashOrder, hc]

theorem createCardOrder_orders_shape (session : StripeSession) (now : Nat)
    (db : DB) :
    (createCardOrder session now db).orders = db.orders ∨
    ∃ x, (createCardOrder session now db).orders = db.orders ++ [x] := by
  cases hc : findById db.carts session.client_reference_id with
  | none =>
    left
    simp [createCardOrder, hc]
  | some cart =>
    cases hu : (db.users.find? fun p => decide (p.2.email = session.customer_email)).map Prod.fst with
    | none =>
      left
      simp [createCardOrder, hc, hu]
    | some uid =>
      right
      refine ⟨(db.nextOrderId,
        { user := uid, cartItems := cart.cartItems,
          shippingAddress := session.metadata,
          totalOrderPrice := session.amount_total / 100, isPaid := true,
          paidAt := some now, paymentMethodType := "card" }), ?_⟩
      simp [createCardOrder, hc, hu]

theorem applyOp_orders_monotone (op : OrderOp) (db : DB) (oid : Nat) (o : Order)
    (h : findById db.orders oid = some o) :
    ∃ o2, findById (applyOp op db).orders oid = some o2 ∧
      (o.isPaid = true → o2.isPaid = true) ∧
      (o.isDelivered = true → o2.isDelivered = true) := by
  cases op with
  | cash cartId userId addr =>
    refine ⟨o, ?_, fun hp => hp, fun hd => hd⟩
    rcases createCashOrder_orders_shape cartId userId addr db with hs | ⟨x, hs⟩
    · rw [show applyOp (OrderOp.cash cartId userId addr) db =
        (createCashOrder cartId userId addr db).2 from rfl, hs]
      exact h
    · rw [show applyOp (OrderOp.cash cartId userId addr) db =
        (createCashOrder cartId userId addr db).2 from rfl, hs]
      exact findById_append_of_some h _
  | card session now =>
    refine ⟨o, ?_, fun hp => hp, fun hd => hd⟩
    rcases createCardOrder_orders_shape session now db with hs | ⟨x, hs⟩
    · rw [show applyOp (OrderOp.card session now) db =
        createCardOrder session now db from rfl, hs]
      exact h
    · rw [show applyOp (OrderOp.card session now) db =
        createCardOrder session now db from rfl, hs]
      exact findById_append_of_some h _
  | pay oid2 t =>
    cases ho : findById db.orders oid2 with
    | none =>
      refine ⟨o, ?_, fun hp => hp, fun hd => hd⟩
      have : (applyOp (OrderOp.pay oid2 t) db).orders = db.orders := by
        simp [applyOp, updateOrderToPaid, ho]
      rw [this]
      exact h
    | some o2 =>
      have horders : (applyOp (OrderOp.pay oid2 t) db).orders =
          saveById db.orders oid2 { o2 with isPaid := true, paidAt := some t } := by
        simp [applyOp, updateOrderToPaid, ho]
      by_cases he : oid = oid2
      · subst he
        have ho2 : o2 = o := by
          rw [h] at ho
          exact (Option.some.injEq _ _ ▸ ho).symm

        refine ⟨{ o with isPaid := true, paidAt := some t }, ?_, fun _ => rfl,
          fun hd => hd⟩
        rw [horders, ho2]
        exact findById_saveById_self h _
      · refine ⟨o, ?_, fun hp => hp, fun hd => hd⟩
        rw [horders, findById_saveById_ne _ he]
        exact h
  | deliver oid2 t =>
    cases ho : findById db.orders oid2 with
    | none =>
      refine ⟨o, ?_, fun hp => hp, fun hd => hd⟩
      have : (applyOp (OrderOp.deliver oid2 t) db).orders = db.orders := by
        simp [applyOp, updateOrderToDelivered, ho]
      rw [this]
      exact h
    | some o2 =>
      have horders : (applyOp (OrderOp.deliver oid2 t) db).orders =
          saveById db.orders oid2 { o2 with isDelivered := true, deliveredAt := some t } := by
        simp [applyOp, updateOrderToDelivered, ho]
      by_cases he : oid = oid2
      · subst he
        have ho2 : o2 = o := by
          rw [h] at ho
          exact (Option.some.injEq _ _ ▸ ho).symm
        refine ⟨{ o with isDelivered := true, deliveredAt := some t }, ?_,
          fun hp => hp, fun _ => rfl⟩
        rw [horders, ho2]
        exact findById_saveById_self h _
      · refine ⟨o, ?_, fun hp => hp, fun hd => hd⟩
        rw [horders, findById_saveById_ne _ he]
        exact h

/-- C6: over every sequence of order operations (cash order, card order, mark
paid, mark delivered), an order present in the state stays present — no
operation of the normal flow deletes an order — and its `isPaid` and
`isDelivered` flags are monotone: once `true` they are never reset. -/
theorem runOps_orders_monotone (ops : List OrderOp) (db : DB) (oid : Nat)
    (o : Order) (h : findById db.orders oid = some o) :
    ∃ o2, findById (runOps ops db).orders oid = some o2 ∧
      (o.isPaid = true → o2.isPaid = true) ∧
      (o.isDelivered = true → o2.isDelivered = true) := by
  induction ops generalizing db o with
  | nil => exact ⟨o, h, fun hp => hp, fun hd => hd⟩
  | cons op rest ih =>
    obtain ⟨o1, h1, hp1, hd1⟩ := applyOp_orders_monotone op db oid o h
    obtain ⟨o2, h2, hp2, hd2⟩ := ih (applyOp op db) o1 h1
    exact ⟨o2, h2, fun hp => hp2 (hp1 hp), fun hd => hd2 (hd1 hd)⟩

/-- Witness for C6: paying then delivering order 5, then attempting a cash
order on a missing cart, keeps the order present with monotone flags. -/
theorem runOps_orders_monotone_witness :
    ∃ o2, findById (runOps [OrderOp.pay 5 10, OrderOp.deliver 5 20,
        OrderOp.cash "nope" "u9" addr0] dbOrder).orders 5 = some o2 ∧
      (order0.isPaid = true → o2.isPaid = true) ∧
      (order0.isDelivered = true → o2.isDelivered = true) :=
  runOps_orders_monotone [OrderOp.pay 5 10, OrderOp.deliver 5 20,
    OrderOp.cash "nope" "u9" addr0] dbOrder 5 order0 (by decide)

/-- C7: a webhook request whose payload does not verify against the shared
signing secret is answered 400 (`Webhook Error: ...`) and the database state
is returned unchanged — no order is created, no product or cart is touched. -/
theorem webhookCheckout_bad_signature (secret : String) (req : WebhookRequest)
    (now : Nat) (db : DB) (e : String)
    (h : constructEvent secret req.event req.sig = .error e) :
    webhookCheckout secret req now db = ((400, "Webhook Error: " ++ e), db) := by
  simp [webhookCheckout, h]

/-- Witness for C7: a wrong signature over a completed-session event on the
example state yields the 400 and the untouched state. -/
theorem webhookCheckout_bad_signature_witness :
    webhookCheckout "whsec" { event := event0, sig := "bad" } 7 dbA =
      ((400, "Webhook Error: " ++
        "No signatures found matching the expected signature for payload"), dbA) :=
  webhookCheckout_bad_signature "whsec" { event := event0, sig := "bad" } 7 dbA
    "No signatures found matching the expected signature for payload" (by rfl)

/-- C8: every list handler — categories, subcategories, brands, users,
reviews, the query-building products list, and the factory-based orders
list — answers 200 with `results` equal to the length of `data`, and an
empty match set is not an error: it yields 200 with `results = 0`. -/
theorem listHandlers_results (db : CatalogDB) (q qp : List (String × String))
    (pid : Option String) (keep : Order → Bool) (page limit : Nat) (dbo : DB) :
    (getCategories db).results = (getCategories db).data.length ∧
    (getCategories db).status = 200 ∧
    (getSubCategories q db).results = (getSubCategories q db).data.length ∧
    (getSubCategories q db).status = 200 ∧
    (getBrands db).results = (getBrands db).data.length ∧
    (getUsers db).results = (getUsers db).data.length ∧
    (getReviews pid db).results = (getReviews pid db).data.length ∧
    (getProducts qp db).results = (getProducts qp db).data.length ∧
    (getProducts qp db).status = 200 ∧
    (findAllOrders keep page limit dbo).results =
      (findAllOrders keep page limit dbo).data.length ∧
    (findAllOrders keep page limit dbo).status = 200 ∧
    ((getSubCategories q db).data = [] →
      (getSubCategories q db).status = 200 ∧ (getSubCategories q db).results = 0) := by
  refine ⟨rfl, rfl, rfl, rfl, rfl, rfl, ?_, rfl, rfl, rfl, rfl, ?_⟩
  · cases pid <;> rfl
  · intro hempty
    refine ⟨rfl, ?_⟩
    have hr : (getSubCategories q db).results = (getSubCategories q db).data.length := rfl
    rw [hr, hempty]
    rfl

/-- Witness for C8: a filter that matches nothing on the empty store yields
200 with `results = 0`. -/
theorem listHandlers_results_witness :
    (getSubCategories [("category", "c1")] emptyCatalog).status = 200 ∧
    (getSubCategories [("category", "c1")] emptyCatalog).results = 0 :=
  (listHandlers_results emptyCatalog [("category", "c1")] [("title", "a")] none
    (fun _ => true) 1 5 emptyDB).2.2.2.2.2.2.2.2.2.2.2 rfl

/-- C4 (the code evaluated at a failing input): with an id resolving to no
document, the subcategory, brand, user and product get/update/delete
handlers and the category update/delete handlers answer 404 with the id in
the message — but `getCategory` throws `ReferenceError: id is not defined`
(its message template reads the identifier `id`, which the handler never
binds), `getReview` answers 200 with an empty array (it runs `find` by
product, whose array result is always truthy, so its 404 branch is
unreachable), and `updateReview`/`deleteReview` throw
`ReferenceError: ApiError is not defined` (their module never imports
`ApiError`, and the constructor reference is evaluated before the 404 is
built). -/
theorem getById_unknown_id_evaluation :
    getCategory "64fa" emptyCatalog = .thrown "ReferenceError: id is not defined" ∧
    getReview (some "64fa") emptyCatalog = .ok 200 [] ∧
    getSubCategory "64fa" emptyCatalog =
      .nextError 404 "No document for this id 64fa" ∧
    getBrand "64fa" emptyCatalog = .nextError 404 "No document for this id 64fa" ∧
    getUser "64fa" emptyCatalog = .nextError 404 "No document for this id 64fa" ∧
    getProduct "64fa" emptyCatalog = .nextError 404 "No document for this id 64fa" ∧
    (updateCategory "64fa" id emptyCatalog).1 =
      .nextError 404 "No document for this id 64fa" ∧
    (deleteCategory "64fa" emptyCatalog).1 =
      .nextError 404 "No document for this id 64fa" ∧
    (updateSubCategory "64fa" id emptyCatalog).1 =
      .nextError 404 "No document for this id 64fa" ∧
    (deleteSubCategory "64fa" emptyCatalog).1 =
      .nextError 404 "No document for this id 64fa" ∧
    (updateReview "64fa" id emptyCatalog).1 =
      .thrown "ReferenceError: ApiError is not defined" ∧
    (deleteReview "64fa" emptyCatalog).1 =
      .thrown "ReferenceError: ApiError is not defined" ∧
    (updateBrand "64fa" id emptyCatalog).1 =
      .nextError 404 "No document for this id 64fa" ∧
    (deleteBrand "64fa" emptyCatalog).1 =
      .nextError 404 "No document for this id 64fa" ∧
    (updateUser "64fa" id emptyCatalog).1 =
      .nextError 404 "No document for this id 64fa" ∧
    (deleteUser "64fa" emptyCatalog).1 =
      .nextError 404 "No document for this id 64fa" ∧
    (updateProduct "64fa" id emptyCatalog).1 =
      .nextError 404 "No document for this id 64fa" ∧
    (deleteProduct "64fa" emptyCatalog).1 =
      .nextError 404 "No document for this id 64fa" := by
  decide

/-- C10 counterexample: the middleware is not mounted, so a request whose
body carries an empty-string property reaches the route handlers unchanged —
`appPreRoute`, the pre-handler transformation the application actually
registers, leaves the empty string in place, which is not what `sanitizeInput`
would have produced (`null`). -/
theorem sanitizeInput_not_mounted :
    appPreRoute { body := [("name", JsVal.str "")], query := [], params := [] } =
      { body := [("name", JsVal.str "")], query := [], params := [] } ∧
    sanitizeInput { body := [("name", JsVal.str "")], query := [], params := [] } =
      { body := [("name", JsVal.jsNull)], query := [], params := [] } ∧
    JsVal.jsNull ≠ JsVal.str "" := by
  refine ⟨rfl, rfl, ?_⟩
  intro h
  exact JsVal.noConfusion h

/-- C10 (amended: the claim holds of the middleware itself, not of every
request — the application never mounts `sanitizeInput`, so no route handler
observes its effect): where invoked, `sanitizeInput` rewrites each of
`req.body`, `req.query` and `req.params` property-wise, preserving keys: a
property valued `""` or the string `"undefined"` becomes `null`; plain
objects and arrays are rewritten recursively; any other string, numbers,
booleans, `null` and `undefined` are left unchanged. -/
theorem sanitizeInput_characterization (req : JsRequest)
    (fields : List (String × JsVal)) (k : String) (v : JsVal) (s : String)
    (n : Int) (b : Bool) (elems : List JsVal)
    (hs1 : s ≠ "") (hs2 : s ≠ "undefined") :
    (sanitizeInput req).body = sanitizeFields req.body ∧
    (sanitizeInput req).query = sanitizeFields req.query ∧
    (sanitizeInput req).params = sanitizeFields req.params ∧
    sanitizeFields ([] : List (String × JsVal)) = [] ∧
    sanitizeFields ((k, v) :: fields) = (k, sanitizeProp v) :: sanitizeFields fields ∧
    sanitizeProp (.str "") = .jsNull ∧
    sanitizeProp (.str "undefined") = .jsNull ∧
    sanitizeProp (.str s) = .str s ∧
    sanitizeProp (.num n) = .num n ∧
    sanitizeProp (.boolVal b) = .boolVal b ∧
    sanitizeProp .jsNull = .jsNull ∧
    sanitizeProp .jsUndefined = .jsUndefined ∧
    sanitizeProp (.obj fields) = .obj (sanitizeFields fields) ∧
    sanitizeProp (.arr elems) = .arr (sanitizeElems elems) ∧
    sanitizeElems ([] : List JsVal) = [] ∧
    sanitizeElems (v :: elems) = sanitizeProp v :: sanitizeElems elems := by
  refine ⟨rfl, rfl, rfl, rfl, rfl, ?_, ?_, ?_, rfl, rfl, rfl, rfl, rfl, rfl, rfl, rfl⟩
  · simp [sanitizeProp]
  · simp [sanitizeProp]
  · simp [sanitizeProp, hs1, hs2]

/-- Witness for C10: the string `"ok"` is neither empty nor `"undefined"` and
passes through unchanged, while `""` becomes `null`. -/
theorem sanitizeInput_characterization_witness :
    ("ok" : String) ≠ "" ∧
    sanitizeProp (.str "ok") = .str "ok" ∧
    sanitizeProp (.str "") = .jsNull := by
  have h := sanitizeInput_characterization ⟨[], [], []⟩ [] "k" .jsNull "ok" 0 true []
    (by decide) (by decide)
  exact ⟨by decide, h.2.2.2.2.2.2.2.1, h.2.2.2.2.2.1⟩

end Shop
